import Mathlib

/-!
Shallow embedding of `glance/store/_drivers/filesystem.py`: a simple
filesystem-backed image store.  Byte strings are lists of naturals
(each byte `< 256` in the intended use), the filesystem is a map from
path strings to optional file contents, and fallible Python code is
embedded as `Except`-valued functions.  Stream input to `Store.add` is
a list of chunks followed by an optional exception, modelling a
file-like object that may raise mid-transfer.
-/

abbrev Bytes := List Nat

/-- `ChunkedFile.CHUNKSIZE` from the source: 65536 bytes. -/
def CHUNKSIZE : Nat := 65536

/-- Splitting a byte string into chunks of at most `CHUNKSIZE` bytes, in
file order.  This models both `ChunkedFile.__iter__` (repeated reads of
`CHUNKSIZE` bytes until end of file) and `utils.chunkreadable(image_file,
ChunkedFile.CHUNKSIZE)` used by `Store.add`. -/
def chunkBytes (b : Bytes) : List Bytes :=
  if h : b = [] then [] else b.take CHUNKSIZE :: chunkBytes (b.drop CHUNKSIZE)
termination_by b.length
decreasing_by
  simp only [List.length_drop]
  exact Nat.sub_lt (List.length_pos.mpr h) (by decide)

/-- Python 2 `str` whitespace predicate (`string.whitespace`). -/
def isPySpace (c : Char) : Bool :=
  c = ' ' || c = '\t' || c = '\n' || c = '\r' || c = '\x0b' || c = '\x0c'

/-- Python `str.strip()`: remove leading and trailing whitespace. -/
def pyStrip (s : String) : String :=
  String.mk (((s.data.dropWhile isPySpace).reverse.dropWhile isPySpace).reverse)

/-- Python `os.path.join(a, b)` for POSIX paths (two arguments). -/
def osPathJoin (a b : String) : String :=
  if b.startsWith "/" then b
  else if a = "" || a.endsWith "/" then a ++ b
  else a ++ "/" ++ b

/- ===================== MD5 (`hashlib.md5`) ===================== -/

def UINT32 : Nat := 4294967296

/-- 32-bit left rotation (operands assumed `< 2^32`). -/
def rotl32 (x s : Nat) : Nat := ((x <<< s) % UINT32) ||| (x >>> (32 - s))

/-- The 64 MD5 round constants `K[i] = floor(2^32 * abs(sin(i+1)))`. -/
def md5K : List Nat :=
  [0xd76aa478, 0xe8c7b756, 0x242070db, 0xc1bdceee,
   0xf57c0faf, 0x4787c62a, 0xa8304613, 0xfd469501,
   0x698098d8, 0x8b44f7af, 0xffff5bb1, 0x895cd7be,
   0x6b901122, 0xfd987193, 0xa679438e, 0x49b40821,
   0xf61e2562, 0xc040b340, 0x265e5a51, 0xe9b6c7aa,
   0xd62f105d, 0x02441453, 0xd8a1e681, 0xe7d3fbc8,
   0x21e1cde6, 0xc33707d6, 0xf4d50d87, 0x455a14ed,
   0xa9e3e905, 0xfcefa3f8, 0x676f02d9, 0x8d2a4c8a,
   0xfffa3942, 0x8771f681, 0x6d9d6122, 0xfde5380c,
   0xa4beea44, 0x4bdecfa9, 0xf6bb4b60, 0xbebfbc70,
   0x289b7ec6, 0xeaa127fa, 0xd4ef3085, 0x04881d05,
   0xd9d4d039, 0xe6db99e5, 0x1fa27cf8, 0xc4ac5665,
   0xf4292244, 0x432aff97, 0xab9423a7, 0xfc93a039,
   0x655b59c3, 0x8f0ccc92, 0xffeff47d, 0x85845dd1,
   0x6fa87e4f, 0xfe2ce6e0, 0xa3014314, 0x4e0811a1,
   0xf7537e82, 0xbd3af235, 0x2ad7d2bb, 0xeb86d391]

/-- The 64 MD5 per-round shift amounts. -/
def md5S : List Nat :=
  [7, 12, 17, 22, 7, 12, 17, 22, 7, 12, 17, 22, 7, 12, 17, 22,
   5, 9, 14, 20, 5, 9, 14, 20, 5, 9, 14, 20, 5, 9, 14, 20,
   4, 11, 16, 23, 4, 11, 16, 23, 4, 11, 16, 23, 4, 11, 16, 23,
   6, 10, 15, 21, 6, 10, 15, 21, 6, 10, 15, 21, 6, 10, 15, 21]

/-- MD5 nonlinear round function (32-bit complement via xor with all ones). -/
def md5F (i b c d : Nat) : Nat :=
  if i < 16 then (b &&& c) ||| ((b ^^^ 0xffffffff) &&& d)
  else if i < 32 then (d &&& b) ||| ((d ^^^ 0xffffffff) &&& c)
  else if i < 48 then b ^^^ c ^^^ d
  else c ^^^ (b ||| (d ^^^ 0xffffffff))

/-- MD5 message-word index schedule. -/
def md5G (i : Nat) : Nat :=
  if i < 16 then i
  else if i < 32 then (5 * i + 1) % 16
  else if i < 48 then (3 * i + 5) % 16
  else (7 * i) % 16

/-- A 64-bit value as 8 little-endian bytes. -/
def le64 (n : Nat) : Bytes := (List.range 8).map (fun i => (n >>> (8 * i)) % 256)

/-- A 32-bit value as 4 little-endian bytes. -/
def le32 (n : Nat) : Bytes := (List.range 4).map (fun i => (n >>> (8 * i)) % 256)

/-- MD5 padding: a 0x80 byte, zeros to 56 mod 64, then the bit length
as 64-bit little-endian. -/
def md5Pad (msg : Bytes) : Bytes :=
  let z := (64 + 56 - ((msg.length + 1) % 64)) % 64
  msg ++ [0x80] ++ List.replicate z 0 ++ le64 (8 * msg.length)

/-- Split a padded message into 64-byte blocks. -/
def blocks64 (l : Bytes) : List Bytes :=
  if _h : l = [] then [] else l.take 64 :: blocks64 (l.drop 64)
termination_by l.length
decreasing_by
  simp only [List.length_drop]
  exact Nat.sub_lt (List.length_pos.mpr _h) (by decide)

/-- The `g`-th 32-bit little-endian word of a 64-byte block. -/
def wordAt (block : Bytes) (g : Nat) : Nat :=
  block.getD (4 * g) 0 + 256 * block.getD (4 * g + 1) 0 +
    65536 * block.getD (4 * g + 2) 0 + 16777216 * block.getD (4 * g + 3) 0

abbrev Md5St := Nat × Nat × Nat × Nat

/-- One of the 64 MD5 rounds on state `(a, b, c, d)`. -/
def md5Step (block : Bytes) (st : Md5St) (i : Nat) : Md5St :=
  let a := st.1
  let b := st.2.1
  let c := st.2.2.1
  let d := st.2.2.2
  let f := (md5F i b c d + a + md5K.getD i 0 + wordAt block (md5G i)) % UINT32
  (d, (b + rotl32 f (md5S.getD i 0)) % UINT32, b, c)

/-- Process one 64-byte block: 64 rounds, then add into the chaining state. -/
def md5ProcessBlock (st : Md5St) (block : Bytes) : Md5St :=
  let r := (List.range 64).foldl (md5Step block) st
  ((st.1 + r.1) % UINT32, (st.2.1 + r.2.1) % UINT32,
   (st.2.2.1 + r.2.2.1) % UINT32, (st.2.2.2 + r.2.2.2) % UINT32)

/-- The 16-byte MD5 digest of a byte string. -/
def md5Digest (msg : Bytes) : Bytes :=
  let st := (blocks64 (md5Pad msg)).foldl md5ProcessBlock
    (0x67452301, 0xefcdab89, 0x98badcfe, 0x10325476)
  le32 st.1 ++ le32 st.2.1 ++ le32 st.2.2.1 ++ le32 st.2.2.2

/-- Lowercase hexadecimal digit. -/
def hexDigit (n : Nat) : Char := "0123456789abcdef".data.getD n 'x'

/-- One byte as two lowercase hex characters. -/
def byteToHex (b : Nat) : String := String.mk [hexDigit (b / 16), hexDigit (b % 16)]

/-- `hashlib.md5(msg).hexdigest()`: the whole-message hex digest. -/
def md5hex (msg : Bytes) : String := (md5Digest msg).foldl (fun s b => s ++ byteToHex b) ""

/-- An incremental `hashlib.md5()` object, modelled by the bytes fed so
far (hashlib guarantees `update(a); update(b)` equals `update(a ++ b)`). -/
abbrev Md5Ctx := Bytes

/-- `hashlib.md5()`: fresh incremental checksum. -/
def md5Init : Md5Ctx := []

/-- `checksum.update(buf)`. -/
def md5Update (ctx : Md5Ctx) (buf : Bytes) : Md5Ctx := ctx ++ buf

/-- `checksum.hexdigest()`. -/
def md5Hexdigest (ctx : Md5Ctx) : String := md5hex ctx

/- ===================== StoreLocation ===================== -/

/-- The result of `urlparse.urlparse(uri)` restricted to the fields
`parse_uri` reads: scheme, netloc and path.  A URI of the form
`scheme://rest` (no query or fragment) parses with `netloc ++ path`
equal to `rest`. -/
structure UrlPieces where
  scheme : String
  netloc : String
  path : String
deriving DecidableEq, Repr

/-- Exceptions escaping `StoreLocation.parse_uri`. -/
inductive ParseExc where
  /-- The `assert pieces.scheme in ('file', 'filesystem')` failed. -/
  | assertionError
  /-- `exceptions.BadStoreUri` (the spec's `InvalidLocation`). -/
  | badStoreUri
deriving DecidableEq, Repr

/-- A parsed filesystem store location (`StoreLocation`). -/
structure StoreLocation where
  scheme : String
  path : String
deriving DecidableEq, Repr

/-- `StoreLocation.get_uri`. -/
def get_uri (loc : StoreLocation) : String := "file://" ++ loc.path

/-- `StoreLocation.parse_uri`: assert the scheme is accepted, combine
netloc and path, strip whitespace, reject an empty result. -/
def parse_uri (pieces : UrlPieces) : Except ParseExc StoreLocation :=
  if pieces.scheme = "file" ∨ pieces.scheme = "filesystem" then
    let path := pyStrip (pieces.netloc ++ pieces.path)
    if path = "" then Except.error ParseExc.badStoreUri
    else Except.ok { scheme := pieces.scheme, path := path }
  else Except.error ParseExc.assertionError

/- ===================== Filesystem and configuration ===================== -/

/-- The filesystem state: file contents by path, plus which paths make
`os.unlink` raise (modelling the environment of the best-effort cleanup). -/
structure FS where
  files : String → Option Bytes
  unlinkFails : String → Bool

/-- Create or overwrite a file. -/
def FS.setFile (fs : FS) (p : String) (b : Bytes) : FS :=
  { fs with files := fun q => if q = p then some b else fs.files q }

/-- Remove a file. -/
def FS.removeFile (fs : FS) (p : String) : FS :=
  { fs with files := fun q => if q = p then none else fs.files q }

/-- `os.path.exists`. -/
def osPathExists (fs : FS) (p : String) : Bool := (fs.files p).isSome

/-- `os.path.getsize` (on an existing file). -/
def osPathGetsize (fs : FS) (p : String) : Nat := ((fs.files p).getD []).length

/-- The metadata document: a JSON dict, treated as opaque pass-through. -/
abbrev Metadata := List (String × String)

/-- How loading and validating the metadata file can fail. -/
inductive MetaFailure where
  /-- `glance.store.check_location_metadata` raised `BackendException`
  (failed shape validation). -/
  | backendException
  /-- `IOError` on `open` (missing or unreadable file). -/
  | ioError
  /-- Any other `Exception`, e.g. `jsonutils.load` on malformed JSON. -/
  | otherException
deriving DecidableEq, Repr

/-- Environment for `Store._get_metadata`: the outcome of opening,
JSON-parsing and shape-checking the file at a given path. -/
structure MetaEnv where
  load : String → Except MetaFailure Metadata

/-- The `oslo.config` options read by the store. -/
structure StoreConf where
  filesystem_store_datadir : Option String
  filesystem_store_metadata_file : Option String
deriving DecidableEq, Repr

/-- A configured `Store`: `self.datadir` as set by `configure_add`,
plus the configuration group. -/
structure Store where
  datadir : String
  conf : StoreConf

/-- Exceptions raised by `Store` operations. -/
inductive StoreExc where
  | notFound
  | duplicate
  | storageFull
  | storageWriteDenied
  | forbidden
  | badStoreConfiguration
  /-- A re-raised `IOError` carrying its errno. -/
  | ioError (e : Nat)
  /-- A re-raised exception that is not an `IOError`. -/
  | exc
deriving DecidableEq, Repr

/-- `Store._get_metadata`: empty dict when no metadata file is
configured; otherwise the load result, with every failure caught
(logged in the source) and collapsed to an empty dict. -/
def get_metadata (conf : StoreConf) (env : MetaEnv) : Metadata :=
  match conf.filesystem_store_metadata_file with
  | none => []
  | some p =>
    match env.load p with
    | Except.ok metadata => metadata
    | Except.error MetaFailure.backendException => []
    | Except.error MetaFailure.ioError => []
    | Except.error MetaFailure.otherException => []

/-- `Store._resolve_location`: `NotFound` if the path does not exist,
otherwise the path and its size. -/
def resolve_location (fs : FS) (location : StoreLocation) : Except StoreExc (String × Nat) :=
  let filepath := location.path
  if osPathExists fs filepath then Except.ok (filepath, osPathGetsize fs filepath)
  else Except.error StoreExc.notFound

/-- `Store.get`: resolve, then return a `ChunkedFile` over the path
(its chunk sequence) and the file size.  `st` and `env` mirror the
method's access to `self.conf`; the source never reads the metadata
configuration here. -/
def Store.get (st : Store) (env : MetaEnv) (fs : FS) (location : StoreLocation) :
    Except StoreExc (List Bytes × Nat) :=
  match resolve_location fs location with
  | Except.error e => Except.error e
  | Except.ok (filepath, filesize) =>
    Except.ok (chunkBytes ((fs.files filepath).getD []), filesize)

/-- `Store.get_size`: resolve and return the size only. -/
def Store.get_size (st : Store) (env : MetaEnv) (fs : FS) (location : StoreLocation) :
    Except StoreExc Nat :=
  match resolve_location fs location with
  | Except.error e => Except.error e
  | Except.ok (_, filesize) => Except.ok filesize

/-- `Store.delete`: `NotFound` if absent; unlink, mapping an `OSError`
to `Forbidden` (file left intact). -/
def Store.delete (st : Store) (env : MetaEnv) (fs : FS) (location : StoreLocation) :
    FS × Except StoreExc Unit :=
  let fn := location.path
  if osPathExists fs fn then
    if fs.unlinkFails fn then (fs, Except.error StoreExc.forbidden)
    else (fs.removeFile fn, Except.ok ())
  else (fs, Except.error StoreExc.notFound)

/-- An exception raised by the input stream (or the write of a chunk)
during `Store.add`'s copy loop. -/
inductive PyExc where
  /-- An `IOError` with the given errno. -/
  | ioError (e : Nat)
  /-- Any other `Exception`. -/
  | exc
deriving DecidableEq, Repr

/-- The `image_file` argument of `Store.add` as seen through
`utils.chunkreadable`: the chunks successfully yielded (each written to
the target file), then either normal exhaustion or an exception. -/
structure PyStream where
  chunks : List Bytes
  failure : Option PyExc

/-- The tuple returned by a successful `Store.add`. -/
structure AddResult where
  uri : String
  bytes_written : Nat
  checksum_hex : String
  metadata : Metadata
deriving DecidableEq, Repr

def EACCES : Nat := 13
def EFBIG : Nat := 27
def ENOSPC : Nat := 28

/-- `Store._delete_partial`: best-effort `os.unlink`; an exception from
the unlink is caught and logged, never re-raised. -/
def best_effort_unlink (fs : FS) (filepath : String) : FS :=
  if fs.unlinkFails filepath then fs else fs.removeFile filepath

/-- `Store.add`.  The target path is `os.path.join(self.datadir,
str(image_id))`; an existing file there raises `Duplicate` before
anything is opened or written.  Otherwise `open(filepath, 'wb')`
creates the file and the loop writes each yielded chunk while updating
the byte count and the incremental checksum; the chunks yielded before
a stream/write exception are exactly `image_file.chunks`, so the file
holds their concatenation when the exception is handled.  An `IOError`
deletes the partial file unless its errno is `EACCES`, then re-raises
through the `errors` dict (`EFBIG`/`ENOSPC` to `StorageFull`, `EACCES`
to `StorageWriteDenied`, anything else unchanged); any other exception
deletes the partial file and re-raises. -/
def Store.add (st : Store) (env : MetaEnv) (fs : FS) (image_id : String)
    (image_file : PyStream) (image_size : Nat) : FS × Except StoreExc AddResult :=
  let filepath := osPathJoin st.datadir image_id
  if osPathExists fs filepath then
    (fs, Except.error StoreExc.duplicate)
  else
    let bytes_written := image_file.chunks.foldl (fun n buf => n + buf.length) 0
    let checksum := image_file.chunks.foldl md5Update md5Init
    let written := image_file.chunks.foldl (fun acc buf => acc ++ buf) []
    let fsW := fs.setFile filepath written
    match image_file.failure with
    | none =>
      let checksum_hex := md5Hexdigest checksum
      let metadata := get_metadata st.conf env
      (fsW, Except.ok { uri := "file://" ++ filepath, bytes_written := bytes_written,
                        checksum_hex := checksum_hex, metadata := metadata })
    | some (PyExc.ioError e) =>
      let fsE := if e ≠ EACCES then best_effort_unlink fsW filepath else fsW
      (fsE, Except.error
        (if e = EFBIG then StoreExc.storageFull
         else if e = ENOSPC then StoreExc.storageFull
         else if e = EACCES then StoreExc.storageWriteDenied
         else StoreExc.ioError e))
    | some PyExc.exc =>
      (best_effort_unlink fsW filepath, Except.error StoreExc.exc)

/-- Environment for `Store.configure_add`: whether the data directory
exists at the first check, whether `os.makedirs` raises, and whether
the directory exists at the re-check after a raise (a concurrent
creator may have won the race). -/
structure DirEnv where
  dirExists : Bool
  makedirsRaises : Bool
  existsAfterRaise : Bool
deriving DecidableEq, Repr

/-- `Store.configure_add`: `BadStoreConfiguration` when the datadir
option is absent; create the directory when missing, tolerating a
creation failure if the directory exists on re-check.  Returns the
value assigned to `self.datadir` on success. -/
def configure_add (conf : StoreConf) (env : DirEnv) : Except StoreExc String :=
  match conf.filesystem_store_datadir with
  | none => Except.error StoreExc.badStoreConfiguration
  | some datadir =>
    if env.dirExists then Except.ok datadir
    else if env.makedirsRaises then
      if env.existsAfterRaise then Except.ok datadir
      else Except.error StoreExc.badStoreConfiguration
    else Except.ok datadir

/-- Whether the data directory exists after `configure_add` ran in the
given environment: it existed already, or `os.makedirs` succeeded and
created it, or the concurrent creator's directory was seen. -/
def dirExistsAfter (env : DirEnv) : Bool :=
  env.dirExists || !env.makedirsRaises || env.existsAfterRaise

/- ===================== Concrete fixtures ===================== -/

/-- A configuration with a data directory and no metadata file. -/
def confW : StoreConf :=
  { filesystem_store_datadir := some "/data", filesystem_store_metadata_file := none }

/-- A store configured over `confW`. -/
def stW : Store := { datadir := "/data", conf := confW }

/-- A metadata environment whose file cannot be opened. -/
def envW : MetaEnv := ⟨fun _ => Except.error MetaFailure.ioError⟩

/-- An empty filesystem on which every unlink succeeds. -/
def fsEmpty : FS := ⟨fun _ => none, fun _ => false⟩

/-- A configuration that also names a metadata file. -/
def conf9 : StoreConf :=
  { filesystem_store_datadir := some "/d", filesystem_store_metadata_file := some "/meta" }

/-- A store configured over `conf9`. -/
def st9 : Store := { datadir := "/d", conf := conf9 }

/-- A metadata environment that loads a non-empty valid document. -/
def env9a : MetaEnv := ⟨fun _ => Except.ok [("kind", "static")]⟩

/-- A metadata environment whose load fails. -/
def env9b : MetaEnv := ⟨fun _ => Except.error MetaFailure.ioError⟩

/-- A filesystem holding one three-byte image at `/d/img`. -/
def fs9 : FS := ⟨fun q => if q = "/d/img" then some [1, 2, 3] else none, fun _ => false⟩

/-- The location of the image stored in `fs9`. -/
def loc9 : StoreLocation := { scheme := "file", path := "/d/img" }

/- ===================== Helper lemmas ===================== -/

theorem chunkBytes_flatten (b : Bytes) : (chunkBytes b).flatten = b := by
  induction b using chunkBytes.induct with
  | case1 => simp [chunkBytes]
  | case2 b hb ih => rw [chunkBytes]; simp [hb, ih]

theorem foldl_append_eq (l : List Bytes) (acc : Bytes) :
    l.foldl (fun a b => a ++ b) acc = acc ++ l.flatten := by
  induction l generalizing acc with
  | nil => simp
  | cons x xs ih => simp [ih]

theorem foldl_md5Update (l : List Bytes) (ctx : Md5Ctx) :
    l.foldl md5Update ctx = ctx ++ l.flatten := by
  induction l generalizing ctx with
  | nil => simp
  | cons x xs ih => simp [md5Update, ih]

theorem foldl_length_eq (l : List Bytes) (n : Nat) :
    l.foldl (fun n buf => n + buf.length) n = n + l.flatten.length := by
  induction l generalizing n with
  | nil => simp
  | cons x xs ih => simp [ih]; omega

theorem FS.setFile_files_self (fs : FS) (p : String) (b : Bytes) :
    (fs.setFile p b).files p = some b := by
  simp [FS.setFile]

theorem FS.setFile_unlinkFails (fs : FS) (p : String) (b : Bytes) :
    (fs.setFile p b).unlinkFails = fs.unlinkFails := rfl

/- ===================== Claim theorems ===================== -/

/-- C5 counterexample: the URI `file:// /a ` has the accepted scheme
`file` and the non-empty path ` /a `, but `parse_uri` strips the
surrounding whitespace, so formatting the parsed location yields
`file:///a`, which differs from `file://` followed by the original
path.  The round trip therefore does not leave every non-empty path
unchanged. -/
theorem parse_format_roundtrip_cex :
    parse_uri { scheme := "file", netloc := "", path := " /a " } =
      Except.ok { scheme := "file", path := "/a" } ∧
    get_uri { scheme := "file", path := "/a" } ≠ "file://" ++ " /a " := by
  exact ⟨rfl, by decide⟩

/-- C5 (amended): for every URI with an accepted scheme (`file` or
`filesystem`) and a combined host+path component that is non-empty and
has no leading or trailing whitespace, parsing succeeds and formatting
the parsed location yields `file://` followed by that unchanged path,
normalizing the scheme to `file` regardless of the input scheme. -/
theorem parse_format_roundtrip (pieces : UrlPieces)
    (hs : pieces.scheme = "file" ∨ pieces.scheme = "filesystem")
    (htrim : pyStrip (pieces.netloc ++ pieces.path) = pieces.netloc ++ pieces.path)
    (hne : pieces.netloc ++ pieces.path ≠ "") :
    parse_uri pieces =
      Except.ok { scheme := pieces.scheme, path := pieces.netloc ++ pieces.path } ∧
    get_uri { scheme := pieces.scheme, path := pieces.netloc ++ pieces.path } =
      "file://" ++ (pieces.netloc ++ pieces.path) := by
  constructor
  · rw [parse_uri, if_pos hs]
    simp only [htrim]
    rw [if_neg hne]
  · rfl

theorem parse_format_roundtrip_witness :
    ("filesystem" = "file" ∨ ("filesystem" : String) = "filesystem") ∧
    pyStrip ("" ++ "/var/lib/images") = "" ++ "/var/lib/images" ∧
    ("" ++ "/var/lib/images" : String) ≠ "" ∧
    (parse_uri { scheme := "filesystem", netloc := "", path := "/var/lib/images" } =
      Except.ok { scheme := "filesystem", path := "" ++ "/var/lib/images" } ∧
     get_uri { scheme := "filesystem", path := "" ++ "/var/lib/images" } =
      "file://" ++ ("" ++ "/var/lib/images")) :=
  ⟨Or.inr rfl, by decide, by decide,
   parse_format_roundtrip ⟨"filesystem", "", "/var/lib/images"⟩ (Or.inr rfl)
     (by decide) (by decide)⟩

/-- C6: for both accepted schemes, a URI whose combined host+path
component is empty after trimming whitespace is rejected with
`BadStoreUri` (the spec's `InvalidLocation`); moreover no successfully
parsed location ever has an empty path. -/
theorem parse_empty_path_rejected (pieces : UrlPieces)
    (hs : pieces.scheme = "file" ∨ pieces.scheme = "filesystem")
    (hempty : pyStrip (pieces.netloc ++ pieces.path) = "") :
    parse_uri pieces = Except.error ParseExc.badStoreUri ∧
    ∀ q loc, parse_uri q = Except.ok loc → loc.path ≠ "" := by
  constructor
  · rw [parse_uri, if_pos hs]
    simp [hempty]
  · intro q loc h
    rw [parse_uri] at h
    by_cases hq : q.scheme = "file" ∨ q.scheme = "filesystem"
    · rw [if_pos hq] at h
      by_cases hp : pyStrip (q.netloc ++ q.path) = ""
      · simp only [hp, if_pos rfl] at h
        exact absurd h (by simp)
      · simp only [if_neg hp, Except.ok.injEq] at h
        intro hc
        exact hp (by rw [← h] at hc; exact hc)
    · rw [if_neg hq] at h
      exact absurd h (by simp)

theorem parse_empty_path_rejected_witness :
    (("file" : String) = "file" ∨ ("file" : String) = "filesystem") ∧
    pyStrip ("" ++ "   ") = "" ∧
    (parse_uri { scheme := "file", netloc := "", path := "   " } =
      Except.error ParseExc.badStoreUri ∧
     ∀ q loc, parse_uri q = Except.ok loc → loc.path ≠ "") :=
  ⟨Or.inl rfl, by decide,
   parse_empty_path_rejected ⟨"file", "", "   "⟩ (Or.inl rfl) (by decide)⟩

/-- C10: a URI whose (urlparse-produced) scheme is neither `file` nor
`filesystem` makes `parse_uri` fail on the `assert`, i.e. with an
`AssertionError` rather than the domain `BadStoreUri` error, and no
parsed location is produced. -/
theorem parse_bad_scheme_assert (pieces : UrlPieces)
    (hs : ¬(pieces.scheme = "file" ∨ pieces.scheme = "filesystem")) :
    parse_uri pieces = Except.error ParseExc.assertionError ∧
    parse_uri pieces ≠ Except.error ParseExc.badStoreUri ∧
    ∀ loc, parse_uri pieces ≠ Except.ok loc := by
  have h1 : parse_uri pieces = Except.error ParseExc.assertionError := by
    rw [parse_uri, if_neg hs]
  exact ⟨h1, by rw [h1]; simp, fun loc => by rw [h1]; simp⟩

theorem parse_bad_scheme_assert_witness :
    ¬(("swift" : String) = "file" ∨ ("swift" : String) = "filesystem") ∧
    (parse_uri { scheme := "swift", netloc := "", path := "/a" } =
      Except.error ParseExc.assertionError ∧
     parse_uri { scheme := "swift", netloc := "", path := "/a" } ≠
      Except.error ParseExc.badStoreUri ∧
     ∀ loc, parse_uri { scheme := "swift", netloc := "", path := "/a" } ≠ Except.ok loc) :=
  ⟨by decide, parse_bad_scheme_assert ⟨"swift", "", "/a"⟩ (by decide)⟩

/-- C7: `_get_metadata` never raises: it returns the empty mapping when
no metadata file is configured, and the empty mapping whenever opening,
JSON-parsing or shape-validating the configured file fails (every
failure is caught and logged in the source).  Totality of the Lean
function reflects that no exception escapes. -/
theorem get_metadata_never_raises (conf : StoreConf) (env : MetaEnv) :
    (conf.filesystem_store_metadata_file = none → get_metadata conf env = []) ∧
    (∀ p fail, conf.filesystem_store_metadata_file = some p →
      env.load p = Except.error fail → get_metadata conf env = []) := by
  constructor
  · intro h
    simp [get_metadata, h]
  · intro p fail hp hl
    cases fail <;> simp [get_metadata, hp, hl]

theorem get_metadata_never_raises_witness :
    ({ filesystem_store_datadir := some "/d",
       filesystem_store_metadata_file := some "/meta" } : StoreConf).filesystem_store_metadata_file =
      some "/meta" ∧
    (MetaEnv.mk (fun _ => Except.error MetaFailure.otherException)).load "/meta" =
      Except.error MetaFailure.otherException ∧
    get_metadata { filesystem_store_datadir := some "/d",
                   filesystem_store_metadata_file := some "/meta" }
      (MetaEnv.mk (fun _ => Except.error MetaFailure.otherException)) = [] :=
  ⟨rfl, rfl,
   (get_metadata_never_raises _ _).2 "/meta" MetaFailure.otherException rfl rfl⟩

/-- C8: `configure_add` fails with `BadStoreConfiguration` exactly when
the datadir option is absent, or the directory is missing, creating it
raises, and it still does not exist on re-check; when creation raises
but a concurrent creator won the race, it succeeds.  Every success
leaves the directory existing, and a repeat call that sees the existing
directory succeeds again. -/
theorem configure_add_spec (conf : StoreConf) (env : DirEnv) :
    (configure_add conf env = Except.error StoreExc.badStoreConfiguration ↔
      conf.filesystem_store_datadir = none ∨
        (env.dirExists = false ∧ env.makedirsRaises = true ∧ env.existsAfterRaise = false)) ∧
    (∀ d, conf.filesystem_store_datadir = some d →
      ((configure_add conf env = Except.ok d ∧ dirExistsAfter env = true) ∨
        configure_add conf env = Except.error StoreExc.badStoreConfiguration)) ∧
    (∀ d (env2 : DirEnv), conf.filesystem_store_datadir = some d → env2.dirExists = true →
      configure_add conf env2 = Except.ok d) := by
  obtain ⟨de, mr, ea⟩ := env
  refine ⟨?_, ?_, ?_⟩
  · cases h : conf.filesystem_store_datadir <;>
      cases de <;> cases mr <;> cases ea <;>
      simp [configure_add, h]
  · intro d hd
    cases de <;> cases mr <;> cases ea <;>
      simp [configure_add, hd, dirExistsAfter]
  · intro d env2 hd he
    simp [configure_add, hd, he]

theorem configure_add_spec_witness :
    ({ filesystem_store_datadir := some "/data",
       filesystem_store_metadata_file := none } : StoreConf).filesystem_store_datadir =
      some "/data" ∧
    (DirEnv.mk false true true).dirExists = false ∧
    configure_add { filesystem_store_datadir := some "/data",
                    filesystem_store_metadata_file := none }
      (DirEnv.mk false true true) = Except.ok "/data" ∧
    (DirEnv.mk true false false).dirExists = true ∧
    configure_add { filesystem_store_datadir := some "/data",
                    filesystem_store_metadata_file := none }
      (DirEnv.mk true false false) = Except.ok "/data" := by
  refine ⟨rfl, rfl, ?_, rfl, ?_⟩
  · have h := (configure_add_spec
      { filesystem_store_datadir := some "/data", filesystem_store_metadata_file := none }
      (DirEnv.mk false true true)).2.1 "/data" rfl
    rcases h with ⟨hok, _⟩ | hbad
    · exact hok
    · exact absurd hbad (by simp [configure_add])
  · exact (configure_add_spec
      { filesystem_store_datadir := some "/data", filesystem_store_metadata_file := none }
      (DirEnv.mk true false false)).2.2 "/data" (DirEnv.mk true false false) rfl rfl

/-- A successful `add` (fresh target path, stream ends without raising)
writes the concatenated chunks to the target path and returns the URI,
byte count, hex checksum and metadata. -/
theorem add_success_eq (st : Store) (env : MetaEnv) (fs : FS) (id : String)
    (chunks : List Bytes) (sz : Nat)
    (hfresh : fs.files (osPathJoin st.datadir id) = none) :
    Store.add st env fs id ⟨chunks, none⟩ sz =
      (fs.setFile (osPathJoin st.datadir id) chunks.flatten,
       Except.ok { uri := "file://" ++ osPathJoin st.datadir id,
                   bytes_written := chunks.flatten.length,
                   checksum_hex := md5hex chunks.flatten,
                   metadata := get_metadata st.conf env }) := by
  have hex : osPathExists fs (osPathJoin st.datadir id) = false := by
    simp [osPathExists, hfresh]
  rw [Store.add]
  simp only [hex, Bool.false_eq_true, if_false, foldl_append_eq, foldl_length_eq,
    foldl_md5Update, md5Hexdigest, md5Init, List.nil_append, Nat.zero_add]

/-- `get` on an existing file returns its chunk sequence and size. -/
theorem get_ok_eq (st : Store) (env : MetaEnv) (fs : FS) (p : String) (b : Bytes)
    (hb : fs.files p = some b) :
    Store.get st env fs ⟨"file", p⟩ = Except.ok (chunkBytes b, b.length) := by
  simp [Store.get, resolve_location, osPathExists, osPathGetsize, hb]

/-- `get_size` on an existing file returns its size. -/
theorem get_size_ok_eq (st : Store) (env : MetaEnv) (fs : FS) (p : String) (b : Bytes)
    (hb : fs.files p = some b) :
    Store.get_size st env fs ⟨"file", p⟩ = Except.ok b.length := by
  simp [Store.get_size, resolve_location, osPathExists, osPathGetsize, hb]

/-- C1: a successful `add(id, bytes, len(bytes))` followed by `get` on
the location of `id` yields chunks whose concatenation is exactly the
original bytes, with the original size, and `get_size` on that location
returns `len(bytes)`. -/
theorem add_get_roundtrip (st : Store) (env : MetaEnv) (fs : FS) (id : String) (bytes : Bytes)
    (hfresh : fs.files (osPathJoin st.datadir id) = none) :
    ∃ r chunksOut,
      (Store.add st env fs id ⟨chunkBytes bytes, none⟩ bytes.length).2 = Except.ok r ∧
      Store.get st env (Store.add st env fs id ⟨chunkBytes bytes, none⟩ bytes.length).1
        ⟨"file", osPathJoin st.datadir id⟩ = Except.ok (chunksOut, bytes.length) ∧
      chunksOut.flatten = bytes ∧
      Store.get_size st env (Store.add st env fs id ⟨chunkBytes bytes, none⟩ bytes.length).1
        ⟨"file", osPathJoin st.datadir id⟩ = Except.ok bytes.length := by
  have hadd := add_success_eq st env fs id (chunkBytes bytes) bytes.length hfresh
  rw [chunkBytes_flatten] at hadd
  refine ⟨{ uri := "file://" ++ osPathJoin st.datadir id,
            bytes_written := bytes.length,
            checksum_hex := md5hex bytes,
            metadata := get_metadata st.conf env },
          chunkBytes bytes, ?_, ?_, chunkBytes_flatten bytes, ?_⟩
  · rw [hadd]
  · rw [hadd]
    exact get_ok_eq st env _ _ bytes (FS.setFile_files_self fs _ bytes)
  · rw [hadd]
    exact get_size_ok_eq st env _ _ bytes (FS.setFile_files_self fs _ bytes)

theorem add_get_roundtrip_witness :
    fsEmpty.files (osPathJoin stW.datadir "img") = none ∧
    (∃ r chunksOut,
      (Store.add stW envW fsEmpty "img" ⟨chunkBytes [7, 8, 9], none⟩
        ([7, 8, 9] : Bytes).length).2 = Except.ok r ∧
      Store.get stW envW (Store.add stW envW fsEmpty "img" ⟨chunkBytes [7, 8, 9], none⟩
          ([7, 8, 9] : Bytes).length).1
        ⟨"file", osPathJoin stW.datadir "img"⟩ =
          Except.ok (chunksOut, ([7, 8, 9] : Bytes).length) ∧
      chunksOut.flatten = [7, 8, 9] ∧
      Store.get_size stW envW (Store.add stW envW fsEmpty "img" ⟨chunkBytes [7, 8, 9], none⟩
          ([7, 8, 9] : Bytes).length).1
        ⟨"file", osPathJoin stW.datadir "img"⟩ = Except.ok ([7, 8, 9] : Bytes).length) :=
  ⟨rfl, add_get_roundtrip stW envW fsEmpty "img" [7, 8, 9] rfl⟩

/-- C4: a successful `add` returns the hex MD5 digest of the whole
input stream (the concatenation of all consumed chunks, recomputed here
independently by `md5hex`) and a byte count equal to the total number
of input bytes consumed. -/
theorem add_checksum_bytes (st : Store) (env : MetaEnv) (fs : FS) (id : String)
    (chunks : List Bytes) (sz : Nat)
    (hfresh : fs.files (osPathJoin st.datadir id) = none) :
    ∃ r, (Store.add st env fs id ⟨chunks, none⟩ sz).2 = Except.ok r ∧
      r.checksum_hex = md5hex chunks.flatten ∧
      r.bytes_written = chunks.flatten.length := by
  have hadd := add_success_eq st env fs id chunks sz hfresh
  exact ⟨{ uri := "file://" ++ osPathJoin st.datadir id,
           bytes_written := chunks.flatten.length,
           checksum_hex := md5hex chunks.flatten,
           metadata := get_metadata st.conf env },
         by rw [hadd], rfl, rfl⟩

theorem add_checksum_bytes_witness :
    fsEmpty.files (osPathJoin stW.datadir "img4") = none ∧
    (∃ r, (Store.add stW envW fsEmpty "img4" ⟨[[1], [2, 3]], none⟩ 3).2 = Except.ok r ∧
      r.checksum_hex = md5hex ([[1], [2, 3]] : List Bytes).flatten ∧
      r.bytes_written = ([[1], [2, 3]] : List Bytes).flatten.length) :=
  ⟨rfl, add_checksum_bytes stW envW fsEmpty "img4" [[1], [2, 3]] 3 rfl⟩

/-- C3: when a file already exists at the target path, `add` fails with
`Duplicate` leaving the filesystem completely untouched (nothing opened
or written, the existing bytes unchanged); in particular a second `add`
with the same id after a successful one fails with `Duplicate` and the
first object's bytes remain. -/
theorem add_duplicate_guard (st : Store) (env : MetaEnv) (fs : FS) (id : String)
    (stream stream2 : PyStream) (sz sz2 : Nat) :
    (∀ b, fs.files (osPathJoin st.datadir id) = some b →
      Store.add st env fs id stream sz = (fs, Except.error StoreExc.duplicate)) ∧
    (∀ bytes, fs.files (osPathJoin st.datadir id) = none →
      (Store.add st env (Store.add st env fs id ⟨chunkBytes bytes, none⟩ bytes.length).1
          id stream2 sz2).2 = Except.error StoreExc.duplicate ∧
      (Store.add st env (Store.add st env fs id ⟨chunkBytes bytes, none⟩ bytes.length).1
          id stream2 sz2).1.files (osPathJoin st.datadir id) = some bytes) := by
  have hdup : ∀ (fsx : FS) (b : Bytes), fsx.files (osPathJoin st.datadir id) = some b →
      ∀ (s : PyStream) (z : Nat),
        Store.add st env fsx id s z = (fsx, Except.error StoreExc.duplicate) := by
    intro fsx b hb s z
    have hex : osPathExists fsx (osPathJoin st.datadir id) = true := by
      simp [osPathExists, hb]
    rw [Store.add]
    simp only [hex, if_true]
  constructor
  · intro b hb
    exact hdup fs b hb stream sz
  · intro bytes hfresh
    have hadd := add_success_eq st env fs id (chunkBytes bytes) bytes.length hfresh
    rw [chunkBytes_flatten] at hadd
    have hfile : (Store.add st env fs id ⟨chunkBytes bytes, none⟩ bytes.length).1.files
        (osPathJoin st.datadir id) = some bytes := by
      rw [hadd]
      exact FS.setFile_files_self fs _ bytes
    have h2 := hdup _ bytes hfile stream2 sz2
    exact ⟨by rw [h2], by rw [h2]; exact hfile⟩

theorem add_duplicate_guard_witness :
    fsEmpty.files (osPathJoin stW.datadir "img3") = none ∧
    ((Store.add stW envW (Store.add stW envW fsEmpty "img3" ⟨chunkBytes [4, 5], none⟩
          ([4, 5] : Bytes).length).1 "img3" ⟨[], none⟩ 0).2 =
        Except.error StoreExc.duplicate ∧
     (Store.add stW envW (Store.add stW envW fsEmpty "img3" ⟨chunkBytes [4, 5], none⟩
          ([4, 5] : Bytes).length).1 "img3" ⟨[], none⟩ 0).1.files
        (osPathJoin stW.datadir "img3") = some [4, 5]) :=
  ⟨rfl, (add_duplicate_guard stW envW fsEmpty "img3" ⟨[], none⟩ ⟨[], none⟩ 0 0).2 [4, 5] rfl⟩

/-- C2: when the stream raises during `add`'s copy loop, the raised
exception fully determines the reported error, independently of whether
the best-effort cleanup unlink succeeds: a generic `IOError` re-raises
after removing the partial file (removal guaranteed when the unlink
succeeds), `ENOSPC`/`EFBIG` remove the partial file and report
`StorageFull`, `EACCES` leaves the partial file in place and reports
`StorageWriteDenied`, and a non-`IOError` exception removes the partial
file and re-raises. -/
theorem add_stream_failure (st : Store) (env : MetaEnv) (fs : FS) (id : String)
    (stream : PyStream) (sz : Nat) (exc : PyExc)
    (hfresh : fs.files (osPathJoin st.datadir id) = none)
    (hfail : stream.failure = some exc) :
    (∀ e, exc = PyExc.ioError e → e ≠ EACCES → e ≠ ENOSPC → e ≠ EFBIG →
      (Store.add st env fs id stream sz).2 = Except.error (StoreExc.ioError e) ∧
      (fs.unlinkFails (osPathJoin st.datadir id) = false →
        (Store.add st env fs id stream sz).1.files (osPathJoin st.datadir id) = none)) ∧
    (∀ e, exc = PyExc.ioError e → (e = ENOSPC ∨ e = EFBIG) →
      (Store.add st env fs id stream sz).2 = Except.error StoreExc.storageFull ∧
      (fs.unlinkFails (osPathJoin st.datadir id) = false →
        (Store.add st env fs id stream sz).1.files (osPathJoin st.datadir id) = none)) ∧
    (exc = PyExc.ioError EACCES →
      (Store.add st env fs id stream sz).2 = Except.error StoreExc.storageWriteDenied ∧
      (Store.add st env fs id stream sz).1.files (osPathJoin st.datadir id) =
        some stream.chunks.flatten) ∧
    (exc = PyExc.exc →
      (Store.add st env fs id stream sz).2 = Except.error StoreExc.exc ∧
      (fs.unlinkFails (osPathJoin st.datadir id) = false →
        (Store.add st env fs id stream sz).1.files (osPathJoin st.datadir id) = none)) := by
  have hex : osPathExists fs (osPathJoin st.datadir id) = false := by
    simp [osPathExists, hfresh]
  refine ⟨?_, ?_, ?_, ?_⟩
  · intro e he h13 h28 h27
    subst he
    rw [Store.add]
    simp only [hex, Bool.false_eq_true, if_false, hfail]
    constructor
    · simp [h13, h28, h27]
    · intro hu
      simp [h13, best_effort_unlink, FS.removeFile, FS.setFile, hu]
  · intro e he hfull
    subst he
    rw [Store.add]
    simp only [hex, Bool.false_eq_true, if_false, hfail]
    have h13 : e ≠ EACCES := by
      rcases hfull with h | h <;> subst h <;> decide
    constructor
    · rcases hfull with h | h <;> subst h <;> simp [EACCES, ENOSPC, EFBIG]
    · intro hu
      simp [h13, best_effort_unlink, FS.removeFile, FS.setFile, hu]
  · intro he
    subst he
    rw [Store.add]
    simp only [hex, Bool.false_eq_true, if_false, hfail]
    constructor
    · simp [EACCES, ENOSPC, EFBIG]
    · simp [foldl_append_eq, FS.setFile]
  · intro he
    subst he
    rw [Store.add]
    simp only [hex, Bool.false_eq_true, if_false, hfail]
    refine ⟨trivial, ?_⟩
    intro hu
    simp [best_effort_unlink, FS.removeFile, FS.setFile, hu]

theorem add_stream_failure_witness :
    fsEmpty.files (osPathJoin stW.datadir "im2") = none ∧
    (⟨[[1, 2]], some (PyExc.ioError 5)⟩ : PyStream).failure = some (PyExc.ioError 5) ∧
    (Store.add stW envW fsEmpty "im2" ⟨[[1, 2]], some (PyExc.ioError 5)⟩ 2).2 =
      Except.error (StoreExc.ioError 5) ∧
    (Store.add stW envW fsEmpty "im2" ⟨[[1, 2]], some (PyExc.ioError 5)⟩ 2).1.files
      (osPathJoin stW.datadir "im2") = none := by
  have h := add_stream_failure stW envW fsEmpty "im2" ⟨[[1, 2]], some (PyExc.ioError 5)⟩ 2
    (PyExc.ioError 5) rfl rfl
  have h5 := h.1 5 rfl (by decide) (by decide) (by decide)
  exact ⟨rfl, rfl, h5.1, h5.2 rfl⟩

/-- C9 counterexample: with a configured metadata file, two metadata
environments that load different documents (a non-empty one versus a
failing load that degrades to the empty mapping) produce the very same
successful `get` result: a pair of the chunk sequence and the size.
The metadata document is therefore not part of `get`'s result — only
`add` returns it. -/
theorem get_metadata_not_attached_cex :
    get_metadata conf9 env9a = [("kind", "static")] ∧
    get_metadata conf9 env9b = [] ∧
    Store.get st9 env9a fs9 loc9 = Store.get st9 env9b fs9 loc9 ∧
    Store.get st9 env9a fs9 loc9 = Except.ok (chunkBytes [1, 2, 3], 3) := by
  refine ⟨rfl, rfl, rfl, ?_⟩
  simp [Store.get, resolve_location, osPathExists, osPathGetsize, fs9, loc9]

/-- C9 (amended): the loaded metadata document is attached to every
successful `add` response; `get` returns only the chunk sequence and
the size, and its result is independent of the metadata environment. -/
theorem add_metadata_attached (st : Store) (env : MetaEnv) (fs : FS) (id : String)
    (chunks : List Bytes) (sz : Nat)
    (hfresh : fs.files (osPathJoin st.datadir id) = none) :
    (∃ r, (Store.add st env fs id ⟨chunks, none⟩ sz).2 = Except.ok r ∧
      r.metadata = get_metadata st.conf env) ∧
    ∀ (envA envB : MetaEnv) (fsx : FS) (loc : StoreLocation),
      Store.get st envA fsx loc = Store.get st envB fsx loc := by
  refine ⟨⟨{ uri := "file://" ++ osPathJoin st.datadir id,
             bytes_written := chunks.flatten.length,
             checksum_hex := md5hex chunks.flatten,
             metadata := get_metadata st.conf env },
           by rw [add_success_eq st env fs id chunks sz hfresh], rfl⟩,
    fun envA envB fsx loc => rfl⟩

theorem add_metadata_attached_witness :
    fsEmpty.files (osPathJoin st9.datadir "img9") = none ∧
    ((∃ r, (Store.add st9 env9a fsEmpty "img9" ⟨[[1]], none⟩ 1).2 = Except.ok r ∧
       r.metadata = get_metadata st9.conf env9a) ∧
     ∀ (envA envB : MetaEnv) (fsx : FS) (loc : StoreLocation),
       Store.get st9 envA fsx loc = Store.get st9 envB fsx loc) :=
  ⟨rfl, add_metadata_attached st9 env9a fsEmpty "img9" [[1]] 1 rfl⟩
